import Mathlib

/-!
Verification development for the eodhp-utils message-processing framework.

The definitions below are a shallow embedding of `eodhp_utils/messagers.py` and
`eodhp_utils/runner.py`.  Python exceptions are modelled by the `PyExc` type,
fallible calls return `Except PyExc _`, and the stateful S3 client is modelled
as a record of state-passing functions.  Side effects (S3 calls, Pulsar
publishes) are recorded in an explicit trace so that claims about "no action was
executed" are expressible.
-/

set_option autoImplicit false

namespace EodhpUtils

/-- Decidable equality for `Except` results, used to evaluate the embedded
functions at concrete inputs. -/
instance {ε α : Type} [DecidableEq ε] [DecidableEq α] : DecidableEq (Except ε α)
  | .error e, .error e' =>
    if h : e = e' then .isTrue (by rw [h]) else .isFalse (by simp [h])
  | .error _, .ok _ => .isFalse (by simp)
  | .ok _, .error _ => .isFalse (by simp)
  | .ok a, .ok a' =>
    if h : a = a' then .isTrue (by rw [h]) else .isFalse (by simp [h])

/--
Model of the Python `Exception`-derived errors raised by this library and its
collaborators (messagers.py raises/catches exactly these families):
`TemporaryFailure` (messagers.py:20), `pulsar.exceptions.PulsarException`
(abstracted by whether it is in the `temp_excepts` list of
`_is_pulsar_error_temporary`, messagers.py:52), `botocore.exceptions.ClientError`
(carrying its error code and HTTP status), `botocore.exceptions.BotoCoreError`
(abstracted by whether it is in the `temp_excepts` list of
`_is_boto_error_temporary`, messagers.py:32), and any other `Exception`.
-/
inductive PyExc where
  | temporaryFailure
  | pulsarError (temporary : Bool)
  | botoClientError (code : String) (httpStatus : Nat)
  | botoCoreError (temporary : Bool)
  | otherError (name : String)
deriving DecidableEq, Repr

/-- True for the exceptions caught by `except (BotoCoreError, ClientError)`. -/
def isBotoError : PyExc → Bool
  | .botoClientError _ _ => true
  | .botoCoreError _ => true
  | _ => false

/-- Embedding of `_is_boto_error_temporary` (messagers.py:32-49), extended to a
total function on `PyExc` exactly as the Python `isinstance` checks make it
total: a `ClientError` is temporary iff its HTTP status is >= 500, a
`BotoCoreError` is temporary iff it is one of the listed retryable classes, and
anything that is not a boto error yields `False`. -/
def isBotoErrorTemporary : PyExc → Bool
  | .botoClientError _ status => 500 ≤ status
  | .botoCoreError t => t
  | _ => false

/-- Embedding of `_is_pulsar_error_temporary` (messagers.py:52-77): true iff the
exception is a Pulsar exception of one of the listed retryable classes. -/
def isPulsarErrorTemporary : PyExc → Bool
  | .pulsarError t => t
  | _ => false

/-- True for `pulsar.exceptions.PulsarException` instances. -/
def isPulsarError : PyExc → Bool
  | .pulsarError _ => true
  | _ => false

/-- Embedding of `Messager.is_temporary_error` (messagers.py:270-277). -/
def is_temporary_error (e : PyExc) : Bool :=
  isBotoErrorTemporary e || isPulsarErrorTemporary e

/-- An exception is recognized as temporary by `Messager.consume` if it is the
`TemporaryFailure` signal, a retryable Pulsar error, or classified temporary by
`is_temporary_error`. -/
def recognizedTemporary : PyExc → Bool
  | .temporaryFailure => true
  | e => isPulsarErrorTemporary e || is_temporary_error e

/-- Embedding of `Messager.Failures` (messagers.py:195-225). -/
structure Failures where
  key_permanent : List String := []
  key_temporary : List String := []
  permanent : Bool := false
  temporary : Bool := false
deriving DecidableEq, Repr

/-- Embedding of `Messager.Failures.add` (messagers.py:219-225). -/
def failuresAdd (a b : Failures) : Failures :=
  { key_permanent := a.key_permanent ++ b.key_permanent
    key_temporary := a.key_temporary ++ b.key_temporary
    permanent := a.permanent || b.permanent
    temporary := a.temporary || b.temporary }

/-- Embedding of `Messager.Failures.any_temporary` (messagers.py:216-217);
`self.temporary or self.key_temporary` under Python truthiness. -/
def any_temporary (f : Failures) : Bool :=
  f.temporary || !f.key_temporary.isEmpty

/-- Embedding of `Messager.CatalogueChanges` (messagers.py:227-241). -/
structure CatalogueChanges where
  added : List String := []
  updated : List String := []
  deleted : List String := []
deriving DecidableEq, Repr

/-- Python truthiness of a `CatalogueChanges` (its `__bool__`,
messagers.py:240-241). -/
def catNonempty (c : CatalogueChanges) : Bool :=
  !(c.added.isEmpty && c.updated.isEmpty && c.deleted.isEmpty)

/-- The attributes with list value defined on `Messager.CatalogueChanges` by
its three dataclass fields (messagers.py:228-231); looking up any other name
raises `AttributeError`, modelled as `none`. -/
def cataloguechangesAttr (c : CatalogueChanges) : String → Option (List String)
  | "added" => some c.added
  | "updated" => some c.updated
  | "deleted" => some c.deleted
  | _ => none

/-- Embedding of `Messager.CatalogueChanges.add` (messagers.py:233-238)
including Python attribute-lookup semantics: the constructor arguments are
evaluated left to right, and the second one reads `other.changed`, a field the
dataclass does not define, so the lookup is `none` (an `AttributeError`). -/
def cataloguechangesAddPy (self other : CatalogueChanges) : Option CatalogueChanges :=
  match cataloguechangesAttr other "added" with
  | none => none
  | some a =>
    match cataloguechangesAttr other "changed" with
    | none => none
    | some ch =>
      match cataloguechangesAttr other "deleted" with
      | none => none
      | some d =>
        some { added := self.added ++ a, updated := self.updated ++ ch,
               deleted := self.deleted ++ d }

/-- Embedding of the `Messager.Action` hierarchy (messagers.py:153-251):
`OutputFileAction` and `S3UploadAction` (both `S3Action`s, with optional bucket
defaulting to the messager's output bucket and `fileBody = none` meaning
delete), and `FailureAction` (optional key, permanent flag defaulting true). -/
inductive Action where
  | outputFile (bucket : Option String) (fileBody : Option String)
      (mimeType : String) (cacheControl : String) (catPath : String)
  | s3Upload (bucket : Option String) (fileBody : Option String)
      (mimeType : String) (cacheControl : String) (key : String)
  | failure (key : Option String) (permanent : Bool)
deriving DecidableEq, Repr

/-- Trace of the externally visible calls made while consuming one message. -/
inductive Effect where
  | headE (bucket : Option String) (key : String)
  | putE (bucket : Option String) (key : String) (body : String)
  | deleteE (bucket : Option String) (key : String)
  | publishE (data : String)
deriving DecidableEq, Repr

/-- The boto3 S3 client interface used by `Messager._runaction`, modelled as
state-passing functions over an abstract store state `σ` that may raise any
`PyExc`.  `head_object` does not change the state; `put_object` takes body,
mime type and cache control; a failing call leaves the state unchanged. -/
structure S3Client (σ : Type) where
  head_object : σ → Option String → String → Except PyExc Unit
  put_object : σ → Option String → String → String → String → String → Except PyExc σ
  delete_object : σ → Option String → String → Except PyExc σ

/-- Embedding of `bucket = action.bucket or self.output_bucket`
(messagers.py:287): Python `or` falls through on `None` and on the empty
string. -/
def resolveBucket (actionBucket outputBucket : Option String) : Option String :=
  match actionBucket with
  | some s => if s.isEmpty then outputBucket else some s
  | none => outputBucket

/-- Records a boto error into the failure aggregate, as the
`except (BotoCoreError, ClientError)` handler of `_runaction` does
(messagers.py:326-332). -/
def botoFail (e : PyExc) (f : Failures) : Failures :=
  if isBotoErrorTemporary e then { f with temporary := true }
  else { f with permanent := true }

/-- True for a `ClientError` whose error code is `NoSuchKey` or `"404"`, the
condition under which `_runaction` classifies a missing object as `added`
(messagers.py:300-306). -/
def isNoSuchKeyOr404 : PyExc → Bool
  | .botoClientError code _ => code == "NoSuchKey" || code == "404"
  | _ => false

/-- The `put_object` step shared by both write paths of `_runaction`
(messagers.py:317-323).  Returns the resulting state, changes, failures, effect
trace and the exception, if any, that escapes `_runaction`. -/
def putStep {σ : Type} (cl : S3Client σ) (st : σ) (b : Option String)
    (key body mime cc : String) (cat : CatalogueChanges) (f : Failures)
    (effs : List Effect) :
    σ × CatalogueChanges × Failures × List Effect × Option PyExc :=
  match cl.put_object st b key body mime cc with
  | .ok st' => (st', cat, f, effs ++ [.putE b key body], none)
  | .error e =>
    if isBotoError e then (st, cat, botoFail e f, effs ++ [.putE b key body], none)
    else (st, cat, f, effs ++ [.putE b key body], some e)

/-- Embedding of `Messager._runaction` (messagers.py:279-342).  Returns the new
store state, the updated `CatalogueChanges` and `Failures`, this action's
effect trace, and `some e` if a non-boto exception escapes the method (boto
errors are caught inside and folded into the failures). -/
def runaction {σ : Type} (cl : S3Client σ) (outB : Option String) (pfx : String)
    (st : σ) (cat : CatalogueChanges) (f : Failures) :
    Action → σ × CatalogueChanges × Failures × List Effect × Option PyExc
  | .outputFile abkt body mime cc catPath =>
    let b := resolveBucket abkt outB
    let key := pfx ++ catPath
    match body with
    | none =>
      let cat' := { cat with deleted := cat.deleted ++ [key] }
      match cl.delete_object st b key with
      | .ok st' => (st', cat', f, [.deleteE b key], none)
      | .error e =>
        if isBotoError e then (st, cat', botoFail e f, [.deleteE b key], none)
        else (st, cat', f, [.deleteE b key], some e)
    | some bodyStr =>
      match cl.head_object st b key with
      | .ok _ =>
        putStep cl st b key bodyStr mime cc
          { cat with updated := cat.updated ++ [key] } f [.headE b key]
      | .error e =>
        if isNoSuchKeyOr404 e then
          putStep cl st b key bodyStr mime cc
            { cat with added := cat.added ++ [key] } f [.headE b key]
        else if isBotoError e then (st, cat, botoFail e f, [.headE b key], none)
        else (st, cat, f, [.headE b key], some e)
  | .s3Upload abkt body mime cc ukey =>
    let b := resolveBucket abkt outB
    match body with
    | none =>
      match cl.delete_object st b ukey with
      | .ok st' => (st', cat, f, [.deleteE b ukey], none)
      | .error e =>
        if isBotoError e then (st, cat, botoFail e f, [.deleteE b ukey], none)
        else (st, cat, f, [.deleteE b ukey], some e)
    | some bodyStr => putStep cl st b ukey bodyStr mime cc cat f []
  | .failure k p =>
    match k with
    | some s =>
      if s.isEmpty then
        (st, cat,
          (if p then { f with permanent := true } else { f with temporary := true }),
          [], none)
      else
        (st, cat,
          (if p then { f with key_permanent := f.key_permanent ++ [s] }
           else { f with key_temporary := f.key_temporary ++ [s] }),
          [], none)
    | none =>
      (st, cat,
        (if p then { f with permanent := true } else { f with temporary := true }),
        [], none)

/-- The action loop of `Messager.consume` (messagers.py:361-362): run each
action in order, accumulating state, changes, failures and effects; an
exception escaping `_runaction` aborts the loop. -/
def runActions {σ : Type} (cl : S3Client σ) (outB : Option String) (pfx : String) :
    σ → CatalogueChanges → Failures → List Effect → List Action →
    σ × CatalogueChanges × Failures × List Effect × Option PyExc
  | st, cat, f, effs, [] => (st, cat, f, effs, none)
  | st, cat, f, effs, a :: rest =>
    match runaction cl outB pfx st cat f a with
    | (st', cat', f', effA, none) => runActions cl outB pfx st' cat' f' (effs ++ effA) rest
    | (st', cat', f', effA, some e) => (st', cat', f', effs ++ effA, some e)

/-- The `try:` body of `Messager.consume` (messagers.py:357-377).  The
processing of the input message is abstracted by its outcome `processResult`
(the value of or exception from `self.process_msg(msg)`); building and encoding
the catalogue change message is abstracted by `encode` and the Pulsar
`producer.send` by `send`.  Returns the final state, failures, effect trace,
and the exception that reached the `except` clauses, if any. -/
def consumeBody {σ : Type} (cl : S3Client σ) (outB : Option String) (pfx : String)
    (σ0 : σ) (processResult : Except PyExc (List Action))
    (encode : CatalogueChanges → Except PyExc String)
    (send : String → Except PyExc Unit) :
    σ × Failures × List Effect × Option PyExc :=
  match processResult with
  | .error e => (σ0, {}, [], some e)
  | .ok actions =>
    match runActions cl outB pfx σ0 {} {} [] actions with
    | (st, _, f, effs, some e) => (st, f, effs, some e)
    | (st, cat, f, effs, none) =>
      if catNonempty cat then
        match encode cat with
        | .error e => (st, f, effs, some e)
        | .ok data =>
          match send data with
          | .ok _ => (st, f, effs ++ [.publishE data], none)
          | .error e => (st, f, effs, some e)
      else (st, f, effs, none)

/-- The `except` clauses of `Messager.consume` (messagers.py:378-391):
`TemporaryFailure` marks the aggregate temporary; a `PulsarException` is
classified by `_is_pulsar_error_temporary`; any other `Exception` is classified
by `is_temporary_error`.  Returns `none` for an exception no clause matches
(which would propagate to the caller). -/
def consumeCatches (e : PyExc) (f : Failures) : Option Failures :=
  match e with
  | .temporaryFailure => some { f with temporary := true }
  | .pulsarError t =>
    some (if t then { f with temporary := true } else { f with permanent := true })
  | _ =>
    some (if is_temporary_error e then { f with temporary := true }
          else { f with permanent := true })

/-- Embedding of `Messager.consume` (messagers.py:344-393).  An `Except.error`
result models an exception propagating to the caller. -/
def consume {σ : Type} (cl : S3Client σ) (outB : Option String) (pfx : String)
    (σ0 : σ) (processResult : Except PyExc (List Action))
    (encode : CatalogueChanges → Except PyExc String)
    (send : String → Except PyExc Unit) :
    Except PyExc (σ × Failures × List Effect) :=
  match consumeBody cl outB pfx σ0 processResult encode send with
  | (st, f, effs, none) => .ok (st, f, effs)
  | (st, f, effs, some e) =>
    match consumeCatches e f with
    | some f' => .ok (st, f', effs)
    | none => .error e

/-- Helper: `consume` never produces an `Except.error`, because the three
`except` clauses cover the whole `Exception` hierarchy. -/
theorem consume_isOk {σ : Type} (cl : S3Client σ) (outB : Option String)
    (pfx : String) (σ0 : σ) (pr : Except PyExc (List Action))
    (enc : CatalogueChanges → Except PyExc String)
    (snd : String → Except PyExc Unit) :
    (consume cl outB pfx σ0 pr enc snd).isOk = true := by
  unfold consume
  rcases hb : consumeBody cl outB pfx σ0 pr enc snd with ⟨st, f, effs, exc⟩
  cases exc with
  | none => rfl
  | some e => cases e <;> simp [consumeCatches, Except.isOk, Except.toBool]

/-- State of the in-memory S3 model: a list of ((bucket, key), body) entries,
newest first. -/
abbrev MemState : Type := List ((Option String × String) × String)

/-- Key-match predicate for the in-memory store. -/
def memKeyMatch (b : Option String) (k : String)
    (p : (Option String × String) × String) : Bool :=
  decide (p.1 = (b, k))

/-- Body stored under `(b, k)`, if any. -/
def lookupMem (st : MemState) (b : Option String) (k : String) : Option String :=
  (st.find? (memKeyMatch b k)).map (·.2)

/-- Concrete S3 collaborator: an in-memory store in which `head_object` raises
a `ClientError` with code `"404"` for a missing key (as moto does, see the
comment at messagers.py:302), `put_object` always succeeds, and
`delete_object` always succeeds (S3 deletes are idempotent). -/
def memS3 : S3Client MemState where
  head_object st b k :=
    if (lookupMem st b k).isSome then .ok ()
    else .error (.botoClientError "404" 404)
  put_object st b k body _mime _cc := .ok (((b, k), body) :: st)
  delete_object st b k := .ok (st.filter (fun p => !memKeyMatch b k p))

theorem lookupMem_filter_self (st : MemState) (b : Option String) (k : String) :
    lookupMem (st.filter (fun p => !memKeyMatch b k p)) b k = none := by
  simp only [lookupMem, Option.map_eq_none', List.find?_eq_none, List.mem_filter]
  intro p hp
  simpa using hp.2

/-- Splits a character list at its first `/`, returning the characters before
and after it, or `none` if no `/` occurs. -/
def splitCharsAtSlash : List Char → Option (List Char × List Char)
  | [] => none
  | c :: cs =>
    if c = '/' then some ([], cs)
    else
      match splitCharsAtSlash cs with
      | none => none
      | some (l, r) => some (c :: l, r)

/-- Embedding of `key.split("/", 1)` followed by unpacking into two variables
(messagers.py:456): `none` models the `ValueError` raised when the key contains
no `/`; otherwise the key is split at its first `/` into the stage prefix and
the catalogue path (either part may be empty). -/
def splitFirstSlash (s : String) : Option (String × String) :=
  match splitCharsAtSlash s.data with
  | none => none
  | some (l, r) => some (String.mk l, String.mk r)

/-- Per-key exception classification of `CatalogueChangeMessager.process_msg`
(messagers.py:479-493): boto errors are permanent iff not temporary per
`_is_boto_error_temporary`; `TemporaryFailure` is non-permanent; any other
exception is permanent iff `is_temporary_error` says it is not temporary. -/
def keyErrPermanent (e : PyExc) : Bool :=
  if isBotoError e then !isBotoErrorTemporary e
  else
    match e with
    | .temporaryFailure => false
    | _ => !is_temporary_error e

/-- The inner key loop of `CatalogueChangeMessager.process_msg`
(messagers.py:451-493) for one category: for each key, split it (a malformed
key raises `ValueError` before the per-key `try`, aborting the whole message),
dispatch it, and either append the returned actions or append a keyed
`FailureAction` classified by `keyErrPermanent`. -/
def processKeys (disp : String → String → Except PyExc (List Action)) :
    List String → List Action → Except PyExc (List Action)
  | [], acc => .ok acc
  | k :: ks, acc =>
    match splitFirstSlash k with
    | none => .error (.otherError "ValueError")
    | some (_, cp) =>
      match disp k cp with
      | .ok acts => processKeys disp ks (acc ++ acts)
      | .error e => processKeys disp ks (acc ++ [.failure (some k) (keyErrPermanent e)])

/-- The decoded catalogue change input envelope (messagers.py:440-447). -/
structure ChangeMsg where
  bucket_name : Option String := none
  source : Option String := none
  target : Option String := none
  added_keys : List String := []
  updated_keys : List String := []
  deleted_keys : List String := []
deriving DecidableEq, Repr

/-- Embedding of `CatalogueChangeMessager.process_msg` (messagers.py:433-495):
the three key-list categories are processed in the fixed order added, updated,
deleted; deleted keys are dispatched to `process_delete` (`pd`) and added and
updated keys both to `process_update` (`pu`). -/
def processMsgCCM
    (pu pd : Option String → String → String → Option String → Option String →
      Except PyExc (List Action)) (m : ChangeMsg) : Except PyExc (List Action) :=
  match processKeys (fun k cp => pu m.bucket_name k cp m.source m.target)
      m.added_keys [] with
  | .error e => .error e
  | .ok a1 =>
    match processKeys (fun k cp => pu m.bucket_name k cp m.source m.target)
        m.updated_keys a1 with
    | .error e => .error e
    | .ok a2 =>
      processKeys (fun k cp => pd m.bucket_name k cp m.source m.target)
        m.deleted_keys a2

/-- The contribution of a single well-formed or failing key to the action list
of `process_msg`: the dispatched actions on success, a keyed `FailureAction` on
failure (a key that does not split contributes nothing here because it aborts
the whole message instead). -/
def dispatchOne (disp : String → String → Except PyExc (List Action))
    (k : String) : List Action :=
  match splitFirstSlash k with
  | none => []
  | some (_, cp) =>
    match disp k cp with
    | .ok acts => acts
    | .error e => [.failure (some k) (keyErrPermanent e)]

theorem processKeys_ok (disp : String → String → Except PyExc (List Action))
    (ks : List String) (acc : List Action)
    (h : ∀ k ∈ ks, (splitFirstSlash k).isSome = true) :
    processKeys disp ks acc = .ok (acc ++ ks.flatMap (dispatchOne disp)) := by
  induction ks generalizing acc with
  | nil => simp [processKeys]
  | cons k ks ih =>
    have hk : (splitFirstSlash k).isSome = true := h k (List.mem_cons_self k ks)
    rcases Option.isSome_iff_exists.mp hk with ⟨⟨p, cp⟩, hsplit⟩
    have hrest : ∀ k' ∈ ks, (splitFirstSlash k').isSome = true :=
      fun k' hk' => h k' (List.mem_cons_of_mem _ hk')
    cases hd : disp k cp with
    | ok acts =>
      simp [processKeys, hsplit, hd, ih _ hrest, dispatchOne, List.append_assoc]
    | error e =>
      simp [processKeys, hsplit, hd, ih _ hrest, dispatchOne, List.append_assoc]

theorem processKeys_err (disp : String → String → Except PyExc (List Action))
    (ks : List String) (acc : List Action)
    (h : ∃ k ∈ ks, splitFirstSlash k = none) :
    processKeys disp ks acc = .error (.otherError "ValueError") := by
  induction ks generalizing acc with
  | nil => simp at h
  | cons k ks ih =>
    cases hsplit : splitFirstSlash k with
    | none => simp [processKeys, hsplit]
    | some pr =>
      rcases pr with ⟨p, cp⟩
      have htail : ∃ k' ∈ ks, splitFirstSlash k' = none := by
        rcases h with ⟨k', hk', hnone⟩
        rcases List.mem_cons.mp hk' with rfl | hmem
        · exact absurd hnone (by simp [hsplit])
        · exact ⟨k', hmem, hnone⟩
      cases hd : disp k cp with
      | ok acts => simp [processKeys, hsplit, hd, ih _ htail]
      | error e => simp [processKeys, hsplit, hd, ih _ htail]

/-- The `NoSuchKey` client error reported by `s3_client.get_object` for a key
that is not yet visible (messagers.py:518-520). -/
def nskErr : PyExc := .botoClientError "NoSuchKey" 404

/-- The condition of the retry branch in
`CatalogueChangeBodyMessager.process_update` (messagers.py:518-520): the
exception is a `ClientError` (only those are caught) whose error code is
exactly `"NoSuchKey"` (unlike `_runaction`, the string `"404"` is not
accepted here). -/
def isNoSuchKey : PyExc → Bool
  | .botoClientError code _ => code == "NoSuchKey"
  | _ => false

/-- The `entry_body` passed to `process_update_body` (messagers.py:528-538):
the parsed JSON value on success, the raw string when `json.loads` raises
`ValueError`. -/
def bodyOf {β : Type} (parse : String → Option β) (body : String) : β ⊕ String :=
  match parse body with
  | some j => Sum.inl j
  | none => Sum.inr body

/-- Embedding of `CatalogueChangeBodyMessager.process_update`
(messagers.py:507-538).  `getObj i` is the outcome of the `i`-th
`s3_client.get_object` call (outcomes may differ between attempts because of
S3 eventual consistency), `parse` models `json.loads` (`none` = `ValueError`),
and `pub` is the subclass's `process_update_body`.  A `ClientError` with code
`NoSuchKey` triggers a recursive retry while `retries < 3`; any other
exception, or `NoSuchKey` once the retries are exhausted, is re-raised. -/
def processUpdateCCBM {β : Type} (getObj : Nat → Except PyExc String)
    (parse : String → Option β)
    (pub : β ⊕ String → Except PyExc (List Action)) (retries : Nat) :
    Except PyExc (List Action) :=
  match getObj retries with
  | .error e =>
    if h : isNoSuchKey e = true ∧ retries < 3 then
      processUpdateCCBM getObj parse pub (retries + 1)
    else .error e
  | .ok body => pub (bodyOf parse body)
termination_by 3 - retries
decreasing_by omega

/-- The broker acknowledgement issued by `Runner._process_messager_msg`. -/
inductive AckDecision where
  | ack
  | nack
deriving DecidableEq, Repr

/-- Embedding of `Runner._process_messager_msg` (runner.py:236-256): call
`messager.consume(msg)` and negative-acknowledge iff the returned aggregate's
`any_temporary()` is truthy, otherwise acknowledge.  `none` models the case of
an exception escaping `consume` (in which case neither ack nor nack is
issued). -/
def runnerDecision {σ : Type} (cl : S3Client σ) (outB : Option String)
    (pfx : String) (σ0 : σ) (pr : Except PyExc (List Action))
    (enc : CatalogueChanges → Except PyExc String)
    (snd : String → Except PyExc Unit) : Option AckDecision :=
  match consume cl outB pfx σ0 pr enc snd with
  | .ok (_, f, _) => some (if any_temporary f then .nack else .ack)
  | .error _ => none

/-- `SUSPEND_TIME` (runner.py:30), in seconds. -/
def suspendTime : ℚ := 5

/-- Embedding of `Runner._process_takeover` (runner.py:258-282), acting on the
suspension deadline `su` (seconds) and the pause flags of the owned messager
consumers.  `msgSub` is `data_dict.get("suspend_subscription")` and
`publishTsMs` is `msg.publish_timestamp()` in milliseconds.  If the broadcast
names this runner's subscription, the deadline is extended to
`max(current, publish_time/1000 + SUSPEND_TIME)` and every owned consumer is
paused; otherwise nothing changes. -/
def processTakeover (subName : String) (su : ℚ) (consumers : List Bool)
    (msgSub : Option String) (publishTsMs : ℚ) : ℚ × List Bool :=
  if msgSub = some subName then
    (max su (publishTsMs / 1000 + suspendTime), consumers.map (fun _ => true))
  else (su, consumers)

/-- Embedding of the suspension check at the top of `Runner.run`'s main loop
(runner.py:348-350) together with `Runner._end_takeover` (runner.py:284-290):
when the deadline is non-zero and already past, every owned consumer is
resumed and the deadline is reset to 0. -/
def runLoopTakeoverCheck (su : ℚ) (now : ℚ) (consumers : List Bool) :
    ℚ × List Bool :=
  if su ≠ 0 then
    if su < now then (0, consumers.map (fun _ => false)) else (su, consumers)
  else (su, consumers)

/-- Embedding of `itertools.batched(inputs, m + 1)`: each step takes the next
`m + 1` items as one batch.  The extra `fuel` argument makes the recursion
structural; it only needs to be at least the list length, since every step
consumes at least one element. -/
def batchedGo {α : Type} (m : Nat) : Nat → List α → List (List α)
  | _, [] => []
  | 0, _ :: _ => []
  | fuel + 1, x :: xs => (x :: xs.take m) :: batchedGo m fuel (xs.drop m)

/-- `itertools.batched(inputs, batchSize)` (runner.py:464): successive batches
of `batchSize` items, the last one possibly shorter.  (`batchSize = 0` raises
`ValueError` in Python; it is mapped to `[]` here and never used.) -/
def batched {α : Type} (batchSize : Nat) (l : List α) : List (List α) :=
  if batchSize = 0 then [] else batchedGo (batchSize - 1) l.length l

/-- The attribute names bound on `Messager.Failures` whose values are binary
operations on `Failures`: the class body (messagers.py:195-225) defines exactly
`any_permanent`, `any_temporary` and `add`, of which only `add` is a
`Failures → Failures → Failures` merge.  Looking up any other name — in
particular `add_two` — raises `AttributeError`, modelled as `none`. -/
def failuresLookupBinop : String → Option (Failures → Failures → Failures)
  | "add" => some failuresAdd
  | _ => none

/-- Embedding of `GeneratorRunner.consume` in single-thread mode
(runner.py:462-474): the inputs are partitioned with `itertools.batched`, every
batch is submitted to `messager.consume` (eagerly, via `Executor.map`), and
then `reduce(Messager.Failures.add_two, all_failures, Messager.Failures())` is
evaluated — whose first argument is an attribute lookup of `add_two` on
`Failures`.  The first component is the list of batches delivered to the
messager, in order; the second is the returned aggregate, or the name of the
exception that escapes. -/
def generatorRunnerConsume {α : Type} (mconsume : List α → Failures)
    (batchSize : Nat) (inputs : List α) :
    List (List α) × Except String Failures :=
  let bs := batched batchSize inputs
  let allFailures := bs.map mconsume
  (bs,
    match failuresLookupBinop "add_two" with
    | some f => .ok (allFailures.foldl f {})
    | none => .error "AttributeError")

/-- `GeneratorRunner.consume` as its own tests (test_runner.py) and the spec
describe it: identical to `generatorRunnerConsume` except that the fold uses
the merge operation the class actually defines, `Messager.Failures.add`. -/
def generatorRunnerConsumeFixed {α : Type} (mconsume : List α → Failures)
    (batchSize : Nat) (inputs : List α) : List (List α) × Failures :=
  let bs := batched batchSize inputs
  (bs, (bs.map mconsume).foldl failuresAdd {})

/-- C3: For every input message and every exception raised by `process_msg`,
action execution, encoding, or publishing, `Messager.consume` never propagates
an exception to its caller — it always returns a `Failures` aggregate — and any
exception not recognized as temporary (by the `TemporaryFailure` type, the
Pulsar classifier, or `is_temporary_error`) is recorded as permanent. -/
theorem consume_never_raises_and_classifies {σ : Type} (cl : S3Client σ)
    (outB : Option String) (pfx : String) (σ0 : σ)
    (pr : Except PyExc (List Action))
    (enc : CatalogueChanges → Except PyExc String)
    (snd : String → Except PyExc Unit) :
    (consume cl outB pfx σ0 pr enc snd).isOk = true ∧
    (∀ (st : σ) (f : Failures) (effs : List Effect) (e : PyExc),
      consumeBody cl outB pfx σ0 pr enc snd = (st, f, effs, some e) →
      recognizedTemporary e = false →
      consume cl outB pfx σ0 pr enc snd = .ok (st, { f with permanent := true }, effs)) := by
  refine ⟨consume_isOk cl outB pfx σ0 pr enc snd, ?_⟩
  intro st f effs e hb hrec
  unfold consume
  rw [hb]
  cases e with
  | temporaryFailure => simp [recognizedTemporary] at hrec
  | pulsarError t =>
    have ht : t = false := by
      simpa [recognizedTemporary, isPulsarErrorTemporary, is_temporary_error,
        isBotoErrorTemporary] using hrec
    subst ht
    simp [consumeCatches]
  | botoClientError c s =>
    have ht : is_temporary_error (.botoClientError c s) = false := by
      simpa [recognizedTemporary, isPulsarErrorTemporary] using hrec
    simp [consumeCatches, ht]
  | botoCoreError t =>
    have ht : is_temporary_error (.botoCoreError t) = false := by
      simpa [recognizedTemporary, isPulsarErrorTemporary] using hrec
    simp [consumeCatches, ht]
  | otherError n =>
    simp [consumeCatches, is_temporary_error, isBotoErrorTemporary,
      isPulsarErrorTemporary]

theorem consume_never_raises_and_classifies_witness :
    consume memS3 none "" ([] : MemState) (.error (.otherError "RuntimeError"))
        (fun _ => .ok "") (fun _ => .ok ())
      = .ok (([] : MemState), ⟨[], [], true, false⟩, []) :=
  (consume_never_raises_and_classifies memS3 none "" [] (.error (.otherError "RuntimeError"))
      (fun _ => .ok "") (fun _ => .ok ())).2
    [] {} [] (.otherError "RuntimeError") rfl (by decide)

/-- C4: for every input message for which `process_msg` raises the
`TemporaryFailure` signal, `consume` returns the aggregate
`{temporary: true, permanent: false}`, the store state is untouched and the
effect trace is empty — no action is executed, no store operation performed
and no notification published. -/
theorem consume_temporary_failure_no_actions {σ : Type} (cl : S3Client σ)
    (outB : Option String) (pfx : String) (σ0 : σ)
    (enc : CatalogueChanges → Except PyExc String)
    (snd : String → Except PyExc Unit) :
    consume cl outB pfx σ0 (.error .temporaryFailure) enc snd
      = .ok (σ0, ⟨[], [], false, true⟩, []) := rfl

/-- C8: `Runner._process_messager_msg` negative-acknowledges the message iff
the aggregate returned by `Messager.consume` reports any temporary failure
(the global flag or a non-empty temporary key list), and acknowledges it in
every other case, including when only permanent or per-key-permanent failures
occurred. -/
theorem runner_nacks_iff_any_temporary {σ : Type} (cl : S3Client σ)
    (outB : Option String) (pfx : String) (σ0 : σ)
    (pr : Except PyExc (List Action))
    (enc : CatalogueChanges → Except PyExc String)
    (snd : String → Except PyExc Unit) (st : σ) (f : Failures) (effs : List Effect)
    (h : consume cl outB pfx σ0 pr enc snd = .ok (st, f, effs)) :
    (runnerDecision cl outB pfx σ0 pr enc snd = some .nack ↔
      (f.temporary = true ∨ f.key_temporary ≠ [])) ∧
    (runnerDecision cl outB pfx σ0 pr enc snd = some .ack ↔
      (f.temporary = false ∧ f.key_temporary = [])) := by
  unfold runnerDecision
  rw [h]
  rcases f with ⟨kp, kt, p, t⟩
  cases t <;> cases kt <;> simp [any_temporary]

theorem runner_nacks_iff_any_temporary_witness :
    runnerDecision memS3 none "" ([] : MemState)
        (.ok [Action.failure (some "k") false]) (fun _ => .ok "") (fun _ => .ok ())
      = some .nack :=
  ((runner_nacks_iff_any_temporary memS3 none "" [] (.ok [Action.failure (some "k") false])
      (fun _ => .ok "") (fun _ => .ok ()) [] ⟨[], ["k"], false, false⟩ [] rfl).1).mpr
    (Or.inr (by decide))

/-- C9: receipt of a takeover broadcast naming this runner's subscription sets
`suspended_until` to `max(previous, publish_time + SUSPEND_TIME)` and pauses
every owned consumer; a broadcast naming a different subscription changes
nothing; and a main-loop tick that observes a non-zero, expired
`suspended_until` resumes every owned consumer and resets it to 0. -/
theorem takeover_suspend_and_resume (subName : String) (su now ts : ℚ)
    (cs : List Bool) (msgSub : Option String) :
    (processTakeover subName su cs (some subName) ts
      = (max su (ts / 1000 + suspendTime), cs.map (fun _ => true))) ∧
    (msgSub ≠ some subName → processTakeover subName su cs msgSub ts = (su, cs)) ∧
    (su ≠ 0 → su < now →
      runLoopTakeoverCheck su now cs = (0, cs.map (fun _ => false))) := by
  refine ⟨by simp [processTakeover], ?_, ?_⟩
  · intro hne
    simp [processTakeover, hne]
  · intro h1 h2
    simp [runLoopTakeoverCheck, h1, h2]

theorem takeover_suspend_and_resume_witness :
    processTakeover "sub" 0 [false] (some "sub") 2000 = (7, [true]) ∧
    processTakeover "sub" 3 [true] (some "other") 2000 = (3, [true]) ∧
    runLoopTakeoverCheck 3 10 [true, true] = (0, [false, false]) := by
  refine ⟨?_, ?_, ?_⟩
  · rw [(takeover_suspend_and_resume "sub" 0 10 2000 [false] (some "sub")).1]
    norm_num [suspendTime]
  · exact (takeover_suspend_and_resume "sub" 3 10 2000 [true] (some "other")).2.1
      (by decide)
  · exact (takeover_suspend_and_resume "sub" 3 10 2000 [true, true] none).2.2
      (by norm_num) (by norm_num)

/-- C10: the merge operation `CatalogueChanges.add` is never usable — for every
pair of `CatalogueChanges` values the attribute lookup of `changed` on the
argument fails, so the call raises `AttributeError` — while `consume`, which
mutates a single `CatalogueChanges` in place and never calls `add`, still
returns a `Failures` aggregate for every input. -/
theorem cataloguechanges_add_always_raises {σ : Type} (cl : S3Client σ)
    (outB : Option String) (pfx : String) (σ0 : σ)
    (pr : Except PyExc (List Action))
    (enc : CatalogueChanges → Except PyExc String)
    (snd : String → Except PyExc Unit) (c1 c2 : CatalogueChanges) :
    cataloguechangesAddPy c1 c2 = none ∧
    (consume cl outB pfx σ0 pr enc snd).isOk = true :=
  ⟨rfl, consume_isOk cl outB pfx σ0 pr enc snd⟩

/-- C6: executing a `CatalogueEntryAction` (`OutputFileAction`) against the
store: with a payload and no object under the computed key, the key is
appended to `added` only; with a payload and an existing object, to `updated`;
with no payload, to `deleted` regardless of prior existence and the object is
removed from the store; and a `DirectBlobAction` (`S3UploadAction`) never
changes the `CatalogueChanges`. -/
theorem runaction_cataloguechange_classification (outB : Option String)
    (pfx : String) (st : MemState) (cat : CatalogueChanges) (f : Failures)
    (abkt : Option String) (body mime cc catPath ukey : String) :
    (lookupMem st (resolveBucket abkt outB) (pfx ++ catPath) = none →
      runaction memS3 outB pfx st cat f (.outputFile abkt (some body) mime cc catPath)
        = ((((resolveBucket abkt outB), pfx ++ catPath), body) :: st,
           { cat with added := cat.added ++ [pfx ++ catPath] }, f,
           [.headE (resolveBucket abkt outB) (pfx ++ catPath),
            .putE (resolveBucket abkt outB) (pfx ++ catPath) body], none)) ∧
    ((lookupMem st (resolveBucket abkt outB) (pfx ++ catPath)).isSome = true →
      runaction memS3 outB pfx st cat f (.outputFile abkt (some body) mime cc catPath)
        = ((((resolveBucket abkt outB), pfx ++ catPath), body) :: st,
           { cat with updated := cat.updated ++ [pfx ++ catPath] }, f,
           [.headE (resolveBucket abkt outB) (pfx ++ catPath),
            .putE (resolveBucket abkt outB) (pfx ++ catPath) body], none)) ∧
    (runaction memS3 outB pfx st cat f (.outputFile abkt none mime cc catPath)
        = (st.filter (fun p => !memKeyMatch (resolveBucket abkt outB) (pfx ++ catPath) p),
           { cat with deleted := cat.deleted ++ [pfx ++ catPath] }, f,
           [.deleteE (resolveBucket abkt outB) (pfx ++ catPath)], none)
      ∧ lookupMem
          (st.filter (fun p => !memKeyMatch (resolveBucket abkt outB) (pfx ++ catPath) p))
          (resolveBucket abkt outB) (pfx ++ catPath) = none) ∧
    ((runaction memS3 outB pfx st cat f (.s3Upload abkt (some body) mime cc ukey)).2.1 = cat ∧
     (runaction memS3 outB pfx st cat f (.s3Upload abkt none mime cc ukey)).2.1 = cat) := by
  refine ⟨?_, ?_, ⟨?_, lookupMem_filter_self st _ _⟩, ?_, ?_⟩
  · intro h
    simp [runaction, memS3, putStep, h, isNoSuchKeyOr404, isBotoError]
  · intro h
    simp [runaction, memS3, putStep, h]
  · simp [runaction, memS3]
  · simp [runaction, memS3, putStep]
  · simp [runaction, memS3]

theorem runaction_cataloguechange_classification_witness :
    (runaction memS3 (some "ob") "pre/" ([] : MemState) {} {}
        (.outputFile none (some "B") "m" "c" "x")
      = (((some "ob", "pre/x"), "B") :: ([] : MemState),
         { ({} : CatalogueChanges) with added := [] ++ ["pre/x"] }, {},
         [.headE (some "ob") "pre/x", .putE (some "ob") "pre/x" "B"], none)) ∧
    (runaction memS3 (some "ob") "pre/" [((some "ob", "pre/x"), "old")] {} {}
        (.outputFile none (some "B") "m" "c" "x")
      = (((some "ob", "pre/x"), "B") :: [((some "ob", "pre/x"), "old")],
         { ({} : CatalogueChanges) with updated := [] ++ ["pre/x"] }, {},
         [.headE (some "ob") "pre/x", .putE (some "ob") "pre/x" "B"], none)) := by
  constructor
  · have h := (runaction_cataloguechange_classification (some "ob") "pre/" [] {} {}
      none "B" "m" "c" "x" "u").1 (by decide)
    simpa using h
  · have h := (runaction_cataloguechange_classification (some "ob") "pre/"
      [((some "ob", "pre/x"), "old")] {} {} none "B" "m" "c" "x" "u").2.1 (by decide)
    simpa using h

/-- C5: for a well-formed catalogue-change message (every key splits on `/`),
`CatalogueChangeMessager.process_msg` dispatches keys in the fixed order
added, then updated, then deleted (within each category in list order), with
deleted keys going to `process_delete` and both added and updated keys to
`process_update`; each key contributes its own dispatched actions, and a key
whose dispatch raises contributes exactly one keyed `FailureAction` classified
by `keyErrPermanent` — sibling keys are unaffected. -/
theorem ccm_process_msg_order_and_isolation
    (pu pd : Option String → String → String → Option String → Option String →
      Except PyExc (List Action)) (m : ChangeMsg)
    (h : ∀ k ∈ m.added_keys ++ m.updated_keys ++ m.deleted_keys,
      (splitFirstSlash k).isSome = true) :
    processMsgCCM pu pd m = .ok
      ((m.added_keys ++ m.updated_keys).flatMap
          (dispatchOne (fun k cp => pu m.bucket_name k cp m.source m.target))
        ++ m.deleted_keys.flatMap
          (dispatchOne (fun k cp => pd m.bucket_name k cp m.source m.target))) ∧
    (∀ (d : String → String → Except PyExc (List Action)) (k p cp : String)
        (e : PyExc), splitFirstSlash k = some (p, cp) → d k cp = .error e →
      dispatchOne d k = [.failure (some k) (keyErrPermanent e)]) := by
  constructor
  · have ha : ∀ k ∈ m.added_keys, (splitFirstSlash k).isSome = true := by
      intro k hk
      exact h k (by simp [hk])
    have hu : ∀ k ∈ m.updated_keys, (splitFirstSlash k).isSome = true := by
      intro k hk
      exact h k (by simp [hk])
    have hd : ∀ k ∈ m.deleted_keys, (splitFirstSlash k).isSome = true := by
      intro k hk
      exact h k (by simp [hk])
    unfold processMsgCCM
    simp only [processKeys_ok _ _ _ ha, processKeys_ok _ _ _ hu,
      processKeys_ok _ _ _ hd, List.nil_append, List.flatMap_append,
      List.append_assoc]
  · intro d k p cp e hs hd
    simp [dispatchOne, hs, hd]

/-- Concrete dispatchers used to witness the C5 theorem. -/
def puWit : Option String → String → String → Option String → Option String →
    Except PyExc (List Action) :=
  fun _ k cp _ _ =>
    if cp = "bad" then .error .temporaryFailure
    else .ok [.s3Upload none (some cp) "application/json" "max-age=0" k]

/-- Concrete delete dispatcher used to witness the C5 theorem. -/
def pdWit : Option String → String → String → Option String → Option String →
    Except PyExc (List Action) :=
  fun _ k _ _ _ => .ok [.failure (some k) true]

theorem ccm_process_msg_order_and_isolation_witness :
    processMsgCCM puWit pdWit
        { added_keys := ["a/x"], updated_keys := ["u/bad"], deleted_keys := ["d/z"] }
      = .ok [.s3Upload none (some "x") "application/json" "max-age=0" "a/x",
             .failure (some "u/bad") false,
             .failure (some "d/z") true] := by
  have h := (ccm_process_msg_order_and_isolation puWit pdWit
    { added_keys := ["a/x"], updated_keys := ["u/bad"], deleted_keys := ["d/z"] }
    (by decide)).1
  rw [h]
  decide

/-- C2 (amended): a key that does not contain a `/` makes the tuple unpacking
`previous_step_prefix, cat_path = key.split("/", 1)` raise `ValueError` before
the per-key `try` block, so `process_msg` aborts: no further key is dispatched,
and `Messager.consume` records the exception as a whole-message permanent
failure with empty per-key lists. -/
theorem ccm_malformed_key_aborts_whole_message {σ : Type} (cl : S3Client σ)
    (outB : Option String) (pfx : String) (σ0 : σ)
    (enc : CatalogueChanges → Except PyExc String)
    (snd : String → Except PyExc Unit)
    (pu pd : Option String → String → String → Option String → Option String →
      Except PyExc (List Action)) (m : ChangeMsg)
    (h : ∃ k ∈ m.added_keys ++ m.updated_keys ++ m.deleted_keys,
      splitFirstSlash k = none) :
    processMsgCCM pu pd m = .error (.otherError "ValueError") ∧
    consume cl outB pfx σ0 (processMsgCCM pu pd m) enc snd
      = .ok (σ0, ⟨[], [], true, false⟩, []) := by
  have hmsg : processMsgCCM pu pd m = .error (.otherError "ValueError") := by
    unfold processMsgCCM
    by_cases ha : ∃ k ∈ m.added_keys, splitFirstSlash k = none
    · simp only [processKeys_err _ _ _ ha]
    · have ha' : ∀ k ∈ m.added_keys, (splitFirstSlash k).isSome = true := by
        intro k hk
        cases hsk : splitFirstSlash k with
        | none => exact absurd ⟨k, hk, hsk⟩ ha
        | some v => rfl
      simp only [processKeys_ok _ _ _ ha']
      by_cases hb2 : ∃ k ∈ m.updated_keys, splitFirstSlash k = none
      · simp only [processKeys_err _ _ _ hb2]
      · have hu' : ∀ k ∈ m.updated_keys, (splitFirstSlash k).isSome = true := by
          intro k hk
          cases hsk : splitFirstSlash k with
          | none => exact absurd ⟨k, hk, hsk⟩ hb2
          | some v => rfl
        simp only [processKeys_ok _ _ _ hu']
        have hd2 : ∃ k ∈ m.deleted_keys, splitFirstSlash k = none := by
          rcases h with ⟨k, hk, hn⟩
          rcases List.mem_append.mp hk with hk' | hk'
          · rcases List.mem_append.mp hk' with h1 | h2
            · exact absurd ⟨k, h1, hn⟩ ha
            · exact absurd ⟨k, h2, hn⟩ hb2
          · exact ⟨k, hk', hn⟩
        simp only [processKeys_err _ _ _ hd2]
  refine ⟨hmsg, ?_⟩
  rw [hmsg]
  rfl

theorem ccm_malformed_key_aborts_whole_message_witness :
    processMsgCCM puWit pdWit { added_keys := ["malformed"] }
      = .error (.otherError "ValueError") ∧
    consume memS3 none "" ([] : MemState)
        (processMsgCCM puWit pdWit { added_keys := ["malformed"] })
        (fun _ => .ok "") (fun _ => .ok ())
      = .ok (([] : MemState), ⟨[], [], true, false⟩, []) :=
  ccm_malformed_key_aborts_whole_message memS3 none "" [] (fun _ => .ok "")
    (fun _ => .ok ()) puWit pdWit { added_keys := ["malformed"] } (by decide)

/-- The multi-key message used to refute C2: the first (added) key has no `/`,
its sibling is well-formed. -/
def mCex : ChangeMsg := { added_keys := ["badkey"], updated_keys := ["ok/p"] }

/-- Update dispatcher used to refute C2: every well-formed key would produce
one store upload, so any dispatched sibling would be visible in the effect
trace and the returned actions. -/
def puCex : Option String → String → String → Option String → Option String →
    Except PyExc (List Action) :=
  fun _ k cp _ _ => .ok [.s3Upload none (some cp) "application/json" "max-age=0" k]

/-- Delete dispatcher used to refute C2. -/
def pdCex : Option String → String → String → Option String → Option String →
    Except PyExc (List Action) :=
  fun _ _ _ _ _ => .ok []

/-- C2 (counterexample): for the message `{added_keys: ["badkey"], updated_keys:
["ok/p"]}` the malformed key is not a per-key permanent failure — `process_msg`
raises `ValueError`, the well-formed sibling `"ok/p"` is never dispatched (the
effect trace is empty and no action of `puCex` appears), and `consume` returns
a whole-message permanent failure with both per-key lists empty. -/
theorem ccm_malformed_key_counterexample :
    processMsgCCM puCex pdCex mCex = .error (.otherError "ValueError") ∧
    consume memS3 none "" ([] : MemState) (processMsgCCM puCex pdCex mCex)
        (fun _ => .ok "") (fun _ => .ok ())
      = .ok (([] : MemState), ⟨[], [], true, false⟩, []) := by
  constructor
  · decide
  · decide

/-- C7: `CatalogueChangeBodyMessager.process_update` retries a `NoSuchKey`
fetch up to 3 times (at most 4 fetch attempts in total, the recursion bounded
by the `retries < 3` guard), re-raises the not-found error as a normal store
error once the retries are exhausted — regardless of what later attempts would
return — and, when the fetched bytes fail to parse as JSON, passes the raw
content through to `process_update_body` as a string. -/
theorem ccbm_process_update_retry_bounded {β : Type}
    (getObj : Nat → Except PyExc String) (parse : String → Option β)
    (pub : β ⊕ String → Except PyExc (List Action)) :
    ((∀ i, i ≤ 3 → getObj i = .error nskErr) →
      processUpdateCCBM getObj parse pub 0 = .error nskErr) ∧
    (∀ (k : Nat) (body : String), k ≤ 3 → (∀ i, i < k → getObj i = .error nskErr) →
      getObj k = .ok body →
      processUpdateCCBM getObj parse pub 0 = pub (bodyOf parse body)) ∧
    (∀ body : String, parse body = none → bodyOf parse body = Sum.inr body) := by
  refine ⟨?_, ?_, ?_⟩
  · intro h
    have e0 := h 0 (by omega)
    have e1 := h 1 (by omega)
    have e2 := h 2 (by omega)
    have e3 := h 3 (by omega)
    unfold processUpdateCCBM
    rw [e0]
    simp only [isNoSuchKey, nskErr]
    unfold processUpdateCCBM
    rw [e1]
    simp only [isNoSuchKey, nskErr]
    unfold processUpdateCCBM
    rw [e2]
    simp only [isNoSuchKey, nskErr]
    unfold processUpdateCCBM
    rw [e3]
    simp [isNoSuchKey, nskErr]
  · intro k body hk hlt hok
    interval_cases k
    · unfold processUpdateCCBM
      rw [hok]
    · have e0 := hlt 0 (by omega)
      unfold processUpdateCCBM
      rw [e0]
      simp only [isNoSuchKey, nskErr]
      unfold processUpdateCCBM
      rw [hok]
      simp
    · have e0 := hlt 0 (by omega)
      have e1 := hlt 1 (by omega)
      unfold processUpdateCCBM
      rw [e0]
      simp only [isNoSuchKey, nskErr]
      unfold processUpdateCCBM
      rw [e1]
      simp only [isNoSuchKey, nskErr]
      unfold processUpdateCCBM
      rw [hok]
      simp
    · have e0 := hlt 0 (by omega)
      have e1 := hlt 1 (by omega)
      have e2 := hlt 2 (by omega)
      unfold processUpdateCCBM
      rw [e0]
      simp only [isNoSuchKey, nskErr]
      unfold processUpdateCCBM
      rw [e1]
      simp only [isNoSuchKey, nskErr]
      unfold processUpdateCCBM
      rw [e2]
      simp only [isNoSuchKey, nskErr]
      unfold processUpdateCCBM
      rw [hok]
      simp
  · intro body hp
    simp [bodyOf, hp]

/-- Fetch oracle used to witness C7: the first two attempts report `NoSuchKey`,
the third succeeds with a non-JSON body. -/
def getObjWit : Nat → Except PyExc String :=
  fun i => if i < 2 then .error nskErr else .ok "notjson"

/-- Parse oracle used to witness C7: nothing parses as JSON. -/
def parseWit : String → Option Nat := fun _ => none

/-- `process_update_body` oracle used to witness C7: tags what it received. -/
def pubWit : Nat ⊕ String → Except PyExc (List Action) :=
  fun b =>
    match b with
    | .inl _ => .ok [.failure (some "json") true]
    | .inr s => .ok [.failure (some s) true]

theorem ccbm_process_update_retry_bounded_witness :
    processUpdateCCBM getObjWit parseWit pubWit 0
      = .ok [.failure (some "notjson") true] := by
  have h := (ccbm_process_update_retry_bounded getObjWit parseWit pubWit).2.1
    2 "notjson" (by omega) (by intro i hi; interval_cases i <;> rfl) rfl
  rw [h]
  rfl

/-- Per-batch consume outcome used in the C1 theorem: batches containing 3
report a permanent failure for key `p3`, batches containing 5 a temporary
failure for key `t5` (mirroring how per-batch failures would be merged). -/
def exConsume : List Nat → Failures :=
  fun b =>
    { key_permanent := if b.contains 3 then ["p3"] else []
      key_temporary := if b.contains 5 then ["t5"] else []
      permanent := b.contains 3
      temporary := b.contains 5 }

/-- C1: `GeneratorRunner.consume` with batch size 2 over `[0,1,2,3,4,5,6]`
does deliver the batches `[0,1],[2,3],[4,5],[6]` in order to the messager, but
the fold of the per-batch aggregates never happens: the code looks up
`Messager.Failures.add_two`, an attribute the class does not define (only
`add` exists), so `consume` raises `AttributeError` instead of returning the
merged result; the fold the tests and spec describe (using `Failures.add`)
would return the union of the per-batch failures. -/
theorem generatorrunner_add_two_undefined :
    (generatorRunnerConsume exConsume 2 [0, 1, 2, 3, 4, 5, 6]).1
      = [[0, 1], [2, 3], [4, 5], [6]] ∧
    (generatorRunnerConsume exConsume 2 [0, 1, 2, 3, 4, 5, 6]).2
      = .error "AttributeError" ∧
    failuresLookupBinop "add_two" = none ∧
    (failuresLookupBinop "add").isSome = true ∧
    (generatorRunnerConsumeFixed exConsume 2 [0, 1, 2, 3, 4, 5, 6]).2
      = ⟨["p3"], ["t5"], true, true⟩ := by
  refine ⟨by decide, by decide, rfl, rfl, by decide⟩

end EodhpUtils
